import Mathlib

/-! Shallow embedding of `src/lsps1/service.rs` (the LSPS1 service handler of
`lightning-liquidity`): the order lifecycle state machine, the per-peer
state store, the protocol dispatch layer and the two business callback
APIs (`send_payment_details`, `update_order_status`).

Rust `HashMap`s are modelled as association lists whose `insert` erases
the old binding first, so keys stay unique.  The message queue and event
queue are modelled as append-only lists inside the service state.  The
two-level lock discipline disappears in this sequential embedding: each
operation is a pure function from service state to service state plus a
result.  A Rust panic (an `unwrap` of `None`) is a distinct outcome of a
handler, kept apart from the `Err` results the handler can return.
-/

namespace LSPS1

/-- Association map with unique keys: `insert` erases the previous
binding, mirroring `HashMap::insert`. -/
abbrev AList (α β : Type) := List (α × β)

def AList.erase {α β : Type} [DecidableEq α] (m : AList α β) (k : α) : AList α β :=
  m.filter (fun p => decide (p.1 ≠ k))

def AList.insert {α β : Type} [DecidableEq α] (m : AList α β) (k : α) (v : β) : AList α β :=
  (k, v) :: m.erase k

def AList.lookup {α β : Type} [DecidableEq α] (m : AList α β) (k : α) : Option β :=
  (m.find? (fun p => decide (p.1 = k))).map (fun p => p.2)

/-- Counterparty identity (`bitcoin::secp256k1::PublicKey`), opaque:
only equality and hashing by value are used. -/
abbrev PublicKey := Nat

/-- Embeds `lsps0::ser::RequestId` — a caller-assigned correlation id wrapping a string. -/
structure RequestId where
  id : String
deriving DecidableEq, Repr

/-- Embeds `lsps1::msgs::OrderId` — an opaque hex-encoded identifier wrapping a string
(the code reads its `.0` field for display). -/
structure OrderId where
  id : String
deriving DecidableEq, Repr

/-- Modelled from the spec: `OrderParams` lives in `lsps1/msgs.rs`, which is not
part of the given sources.  The spec describes it as the client-requested
channel parameters ("capacity, fee terms, etc."), immutable once submitted;
a single capacity field suffices for the validator's bounds comparison. -/
structure OrderParams where
  capacity : Nat
deriving DecidableEq, Repr

/-- Modelled from the spec: `OptionsSupported` (in `lsps1/msgs.rs`, not in the
sources) advertises the provider's supported option ranges, e.g. minimum and
maximum capacity. -/
structure OptionsSupported where
  min_capacity : Nat
  max_capacity : Nat
deriving DecidableEq, Repr

/-- Stands in for the `{:?}` rendering of `OptionsSupported`. -/
def OptionsSupported.debugStr (o : OptionsSupported) : String :=
  "OptionsSupported \x7b min_capacity: " ++ toString o.min_capacity ++
    ", max_capacity: " ++ toString o.max_capacity ++ " \x7d"

/-- Stands in for the `{:?}` rendering of `OrderParams`. -/
def OrderParams.debugStr (o : OrderParams) : String :=
  "OrderParams \x7b capacity: " ++ toString o.capacity ++ " \x7d"

/-- Modelled from the spec: `utils::is_valid` (not in the sources) is the pure
order validator — it "compares each requested field against the advertised
bounds (e.g., minimum/maximum capacity)"; any field outside bounds yields
`false`. -/
def is_valid (order : OrderParams) (options : OptionsSupported) : Bool :=
  decide (options.min_capacity ≤ order.capacity) &&
    decide (order.capacity ≤ options.max_capacity)

/-- Modelled from the spec: `OrderPayment` (in `lsps1/msgs.rs`, not in the
sources) carries the payment terms supplied by the business layer
(invoice/amount), immutable once set. -/
structure OrderPayment where
  invoice : String
deriving DecidableEq, Repr

/-- Modelled from the spec: `ChannelInfo` (in `lsps1/msgs.rs`, not in the
sources) is the optional channel-provisioning info echoed in responses. -/
structure ChannelInfo where
  info : String
deriving DecidableEq, Repr

/-- Embeds `chrono::DateTime<Utc>` — carried data only, modelled as an abstract tick. -/
abbrev DateTime := Nat

/-- Modelled from the spec: the external `OrderState` enum (in
`lsps1/msgs.rs`, not in the sources) is a caller-supplied outward-facing
status label, "e.g. Created/…", distinct from the internal state machine. -/
inductive OrderState where
  | Created
  | Completed
  | Failed
deriving DecidableEq, Repr

/-- Modelled from the spec: the fixed order-mismatch error code (declared in
`lsps1/msgs.rs`, not in the sources); only its fixedness matters here. -/
def LSPS1_CREATE_ORDER_REQUEST_ORDER_MISMATCH_ERROR_CODE : Nat := 1000

/-- Embeds `lsps1::msgs::CreateOrderRequest`. -/
structure CreateOrderRequest where
  order : OrderParams
deriving DecidableEq, Repr

/-- Embeds `lsps1::msgs::GetOrderRequest`. -/
structure GetOrderRequest where
  order_id : OrderId
deriving DecidableEq, Repr

/-- Embeds `lsps1::msgs::GetInfoRequest` (payload unused by the handler). -/
structure GetInfoRequest where
deriving DecidableEq, Repr

/-- Embeds `lsps1::msgs::LSPS1Request` — the request variants routed by `handle_message`. -/
inductive LSPS1Request where
  | GetInfo : GetInfoRequest → LSPS1Request
  | CreateOrder : CreateOrderRequest → LSPS1Request
  | GetOrder : GetOrderRequest → LSPS1Request
deriving DecidableEq, Repr

/-- Embeds `lsps1::msgs::GetInfoResponse`. -/
structure GetInfoResponse where
  website : String
  options : OptionsSupported
deriving DecidableEq, Repr

/-- Embeds `lsps1::msgs::CreateOrderResponse` (also reused for `GetOrder` responses). -/
structure CreateOrderResponse where
  order : OrderParams
  order_id : OrderId
  order_state : OrderState
  created_at : DateTime
  expires_at : DateTime
  payment : OrderPayment
  channel : Option ChannelInfo
deriving DecidableEq, Repr

/-- Embeds `lsps0::ser::ResponseError` — code, human-readable message, diagnostic data. -/
structure ResponseError where
  code : Nat
  message : String
  data : Option String
deriving DecidableEq, Repr

/-- Embeds `lsps1::msgs::LSPS1Response`. -/
inductive LSPS1Response where
  | GetInfo : GetInfoResponse → LSPS1Response
  | CreateOrder : CreateOrderResponse → LSPS1Response
  | CreateOrderError : ResponseError → LSPS1Response
  | GetOrder : CreateOrderResponse → LSPS1Response
deriving DecidableEq, Repr

/-- Embeds `lsps1::msgs::LSPS1Message`. -/
inductive LSPS1Message where
  | Request : RequestId → LSPS1Request → LSPS1Message
  | Response : RequestId → LSPS1Response → LSPS1Message
deriving DecidableEq, Repr

/-- Embeds `lsps1::event::LSPS1ServiceEvent` — the business-facing events. -/
inductive LSPS1ServiceEvent where
  | RequestForPaymentDetails (request_id : RequestId) (counterparty_node_id : PublicKey)
      (order : OrderParams)
  | CheckPaymentConfirmation (request_id : RequestId) (counterparty_node_id : PublicKey)
      (order_id : OrderId)
  | Refund (request_id : RequestId) (counterparty_node_id : PublicKey) (order_id : OrderId)
deriving DecidableEq, Repr

/-- Embeds `crate::events::Event`, restricted to the variant this handler emits. -/
inductive Event where
  | LSPS1Service : LSPS1ServiceEvent → Event
deriving DecidableEq, Repr

/-- Embeds `ErrorAction` of `lightning::ln::msgs` as used here (always `IgnoreAndLog`). -/
inductive ErrorAction where
  | IgnoreAndLog
deriving DecidableEq, Repr

/-- Embeds `lightning::ln::msgs::LightningError`. -/
structure LightningError where
  err : String
  action : ErrorAction
deriving DecidableEq, Repr

/-- Embeds `lightning::util::errors::APIError`, restricted to the variant used here. -/
inductive APIError where
  | APIMisuseError (err : String)
deriving DecidableEq, Repr

/-- Embeds `ChannelStateError` — the state-transition error, convertible to `LightningError`. -/
structure ChannelStateError where
  msg : String
deriving DecidableEq, Repr

/-- Embeds `impl From<ChannelStateError> for LightningError`. -/
def ChannelStateError.toLightningError (e : ChannelStateError) : LightningError :=
  { err := e.msg, action := ErrorAction.IgnoreAndLog }

/-- The internal three-state order state machine `OutboundRequestState`. -/
inductive OutboundRequestState where
  | OrderCreated (order_id : OrderId)
  | WaitingPayment (order_id : OrderId)
  | Ready
deriving DecidableEq, Repr

/-- Debug rendering of a state, standing in for the `{:?}` formatting used in
the state error message. -/
def OutboundRequestState.debugStr : OutboundRequestState → String
  | OutboundRequestState.OrderCreated oid => "OrderCreated \x7b order_id: " ++ oid.id ++ " \x7d"
  | OutboundRequestState.WaitingPayment oid => "WaitingPayment \x7b order_id: " ++ oid.id ++ " \x7d"
  | OutboundRequestState.Ready => "Ready"

/-- Embeds `OutboundRequestState::awaiting_payment`: the only transition,
`OrderCreated → WaitingPayment`; any other state yields a state error. -/
def OutboundRequestState.awaiting_payment :
    OutboundRequestState → Except ChannelStateError OutboundRequestState
  | OutboundRequestState.OrderCreated order_id =>
      Except.ok (OutboundRequestState.WaitingPayment order_id)
  | state =>
      Except.error ⟨"TODO. JIT Channel was in state: " ++ state.debugStr⟩

/-- Embeds `OutboundLSPS1Config` — the immutable configuration block of an order. -/
structure OutboundLSPS1Config where
  order : OrderParams
  created_at : DateTime
  expires_at : DateTime
  payment : OrderPayment
deriving DecidableEq, Repr

/-- Embeds `OutboundCRChannel` — an order record: internal state plus configuration. -/
structure OutboundCRChannel where
  state : OutboundRequestState
  config : OutboundLSPS1Config
deriving DecidableEq, Repr

/-- Embeds `OutboundCRChannel::new`. -/
def OutboundCRChannel.new (order : OrderParams) (created_at expires_at : DateTime)
    (order_id : OrderId) (payment : OrderPayment) : OutboundCRChannel :=
  { state := OutboundRequestState.OrderCreated order_id
    config := { order, created_at, expires_at, payment } }

/-- Embeds `OutboundCRChannel::awaiting_payment` (`&mut self`): on success the stored
state advances; on error the record is returned unchanged. -/
def OutboundCRChannel.awaiting_payment (ch : OutboundCRChannel) :
    OutboundCRChannel × Option LightningError :=
  match ch.state.awaiting_payment with
  | Except.ok s => ({ ch with state := s }, none)
  | Except.error e => (ch, some e.toLightningError)

/-- Embeds `PeerState` — per-counterparty order map, auxiliary correlation map, and
pending-request map. -/
structure PeerState where
  outbound_channels_by_order_id : AList OrderId OutboundCRChannel
  request_to_cid : AList RequestId Nat
  pending_requests : AList RequestId LSPS1Request
deriving DecidableEq, Repr

/-- Embeds `PeerState::default()` — all maps empty. -/
def PeerState.default : PeerState :=
  { outbound_channels_by_order_id := [], request_to_cid := [], pending_requests := [] }

/-- Embeds `PeerState::insert_outbound_channel`. -/
def PeerState.insert_outbound_channel (ps : PeerState) (order_id : OrderId)
    (channel : OutboundCRChannel) : PeerState :=
  { ps with outbound_channels_by_order_id :=
      ps.outbound_channels_by_order_id.insert order_id channel }

/-- Embeds `PeerState::insert_request` (defined in the source but never called). -/
def PeerState.insert_request (ps : PeerState) (request_id : RequestId)
    (channel_id : Nat) : PeerState :=
  { ps with request_to_cid := ps.request_to_cid.insert request_id channel_id }

/-- Embeds `PeerState::remove_outbound_channel`. -/
def PeerState.remove_outbound_channel (ps : PeerState) (order_id : OrderId) : PeerState :=
  { ps with outbound_channels_by_order_id :=
      ps.outbound_channels_by_order_id.erase order_id }

/-- Embeds `LSPS1ServiceConfig` — optional token, supported options and website. -/
structure LSPS1ServiceConfig where
  token : Option String
  options_supported : Option OptionsSupported
  website : Option String
deriving DecidableEq, Repr

/-- The mutable state of `LSPS1ServiceHandler`: the per-peer registry plus the
outbound message queue and the event queue (both append-only FIFOs). -/
structure ServiceState where
  per_peer_state : AList PublicKey PeerState
  pending_messages : List (PublicKey × LSPS1Message)
  pending_events : List Event
deriving DecidableEq, Repr

/-- Fresh handler state: empty registry and empty queues. -/
def ServiceState.initial : ServiceState :=
  { per_peer_state := [], pending_messages := [], pending_events := [] }

/-- Outcome of a message handler: `Ok(())`, `Err(LightningError)`, or a Rust
panic (an `unwrap` of an absent value), which is neither. -/
inductive HandlerResult where
  | ok
  | err (e : LightningError)
  | panicked
deriving DecidableEq, Repr

/-- Embeds `enqueue_response` — append a response message addressed to the
counterparty to the outbound message queue. -/
def enqueue_response (st : ServiceState) (counterparty_node_id : PublicKey)
    (request_id : RequestId) (response : LSPS1Response) : ServiceState :=
  { st with pending_messages :=
      st.pending_messages ++
        [(counterparty_node_id, LSPS1Message.Response request_id response)] }

/-- Append an event to the event queue (`self.pending_events.enqueue`). -/
def enqueue_event (st : ServiceState) (ev : LSPS1ServiceEvent) : ServiceState :=
  { st with pending_events := st.pending_events ++ [Event.LSPS1Service ev] }

/-- Embeds `handle_get_info_request`.  The source unwraps `config.website` and
`config.options_supported`; if either is `None` the `unwrap` panics (the
`ok_or(LightningError …)` is immediately discarded by `unwrap()`), so no
response is enqueued and no error is returned. -/
def handle_get_info_request (cfg : LSPS1ServiceConfig) (st : ServiceState)
    (request_id : RequestId) (counterparty_node_id : PublicKey) :
    ServiceState × HandlerResult :=
  match cfg.website with
  | none => (st, HandlerResult.panicked)
  | some website =>
    match cfg.options_supported with
    | none => (st, HandlerResult.panicked)
    | some options =>
      (enqueue_response st counterparty_node_id request_id
          (LSPS1Response.GetInfo { website := website, options := options }),
        HandlerResult.ok)

/-- Embeds `handle_create_order_request`.  Unwraps `config.options_supported`
(panics when absent).  On validation mismatch: enqueues a
`CreateOrderError` response with the fixed mismatch code and returns an
error; no state is created.  On success: lazily creates the counterparty
entry, records the request as pending, and emits a
`RequestForPaymentDetails` event; no response is sent yet. -/
def handle_create_order_request (cfg : LSPS1ServiceConfig) (st : ServiceState)
    (request_id : RequestId) (counterparty_node_id : PublicKey)
    (params : CreateOrderRequest) : ServiceState × HandlerResult :=
  match cfg.options_supported with
  | none => (st, HandlerResult.panicked)
  | some options =>
    if ¬ is_valid params.order options then
      (enqueue_response st counterparty_node_id request_id
          (LSPS1Response.CreateOrderError
            { code := LSPS1_CREATE_ORDER_REQUEST_ORDER_MISMATCH_ERROR_CODE
              message := "Order does not match options supported by LSP server"
              data := some ("Supported options are " ++ options.debugStr) }),
        HandlerResult.err
          { err := "Client order does not match any supported options: " ++
              params.order.debugStr
            action := ErrorAction.IgnoreAndLog })
    else
      let ps := (st.per_peer_state.lookup counterparty_node_id).getD PeerState.default
      let ps' := { ps with pending_requests :=
          ps.pending_requests.insert request_id (LSPS1Request.CreateOrder params) }
      let st' := { st with per_peer_state :=
          st.per_peer_state.insert counterparty_node_id ps' }
      (enqueue_event st'
          (LSPS1ServiceEvent.RequestForPaymentDetails request_id counterparty_node_id
            params.order),
        HandlerResult.ok)

/-- Embeds `send_payment_details` — business callback consuming a
`RequestForPaymentDetails` event.  `order_id` stands for the draw
`self.generate_order_id()` takes from the injected entropy source.
`pending_requests.remove(&request_id)` removes whatever entry is stored
before the kind of the removed request is examined. -/
def send_payment_details (st : ServiceState) (request_id : RequestId)
    (counterparty_node_id : PublicKey) (payment : OrderPayment)
    (created_at expires_at : DateTime) (order_id : OrderId) :
    ServiceState × Except APIError Unit :=
  match st.per_peer_state.lookup counterparty_node_id with
  | none =>
      (st, Except.error (APIError.APIMisuseError
        ("No state for the counterparty exists: " ++ toString counterparty_node_id)))
  | some ps =>
    match ps.pending_requests.lookup request_id with
    | some (LSPS1Request.CreateOrder params) =>
        let channel := OutboundCRChannel.new params.order created_at expires_at
          order_id payment
        let ps' := { ps with pending_requests := ps.pending_requests.erase request_id }
        let ps'' := ps'.insert_outbound_channel order_id channel
        let st' := { st with per_peer_state :=
            st.per_peer_state.insert counterparty_node_id ps'' }
        (enqueue_response st' counterparty_node_id request_id
            (LSPS1Response.CreateOrder
              { order := params.order, order_id := order_id
                order_state := OrderState.Created
                created_at := created_at, expires_at := expires_at
                payment := payment, channel := none }),
          Except.ok ())
    | some _ =>
        -- `HashMap::remove` already removed the (non-CreateOrder) entry
        -- before the match arm rejected it.
        let ps' := { ps with pending_requests := ps.pending_requests.erase request_id }
        ({ st with per_peer_state := st.per_peer_state.insert counterparty_node_id ps' },
          Except.error (APIError.APIMisuseError
            ("No pending buy request for request_id: " ++ request_id.id)))
    | none =>
        -- `HashMap::remove` of an absent key mutates nothing.
        (st, Except.error (APIError.APIMisuseError
          ("No pending buy request for request_id: " ++ request_id.id)))

/-- Embeds `handle_get_order_request`.  Unknown counterparty or unknown order id is a
protocol error and mutates nothing.  Otherwise the forward transition is
attempted: on failure the record is removed and a `Refund` event emitted
before the error propagates; on success the request id is recorded as
pending and a `CheckPaymentConfirmation` event is emitted. -/
def handle_get_order_request (st : ServiceState) (request_id : RequestId)
    (counterparty_node_id : PublicKey) (params : GetOrderRequest) :
    ServiceState × HandlerResult :=
  match st.per_peer_state.lookup counterparty_node_id with
  | none =>
      (st, HandlerResult.err
        { err := "Received error response for a create order request from an unknown counterparty (" ++
            toString counterparty_node_id ++ ")"
          action := ErrorAction.IgnoreAndLog })
  | some ps =>
    match ps.outbound_channels_by_order_id.lookup params.order_id with
    | none =>
        (st, HandlerResult.err
          { err := "Received get order request for unknown order id " ++ params.order_id.id
            action := ErrorAction.IgnoreAndLog })
    | some outbound_channel =>
      match outbound_channel.awaiting_payment with
      | (_, some e) =>
          let ps' := { ps with outbound_channels_by_order_id :=
              ps.outbound_channels_by_order_id.erase params.order_id }
          let st' := { st with per_peer_state :=
              st.per_peer_state.insert counterparty_node_id ps' }
          (enqueue_event st'
              (LSPS1ServiceEvent.Refund request_id counterparty_node_id params.order_id),
            HandlerResult.err e)
      | (ch', none) =>
          let ps' := { ps with
            outbound_channels_by_order_id :=
              ps.outbound_channels_by_order_id.insert params.order_id ch'
            pending_requests :=
              ps.pending_requests.insert request_id (LSPS1Request.GetOrder params) }
          let st' := { st with per_peer_state :=
              st.per_peer_state.insert counterparty_node_id ps' }
          (enqueue_event st'
              (LSPS1ServiceEvent.CheckPaymentConfirmation request_id counterparty_node_id
                params.order_id),
            HandlerResult.ok)

/-- Embeds `update_order_status` — business callback reporting current status for an
order.  Unknown counterparty or order id is a misuse error.  Otherwise a
`GetOrder` response echoing the order's immutable configuration plus the
caller-supplied status label and channel info is enqueued.  The per-peer
store is never mutated. -/
def update_order_status (st : ServiceState) (request_id : RequestId)
    (counterparty_node_id : PublicKey) (order_id : OrderId)
    (order_state : OrderState) (channel : Option ChannelInfo) :
    ServiceState × Except APIError Unit :=
  match st.per_peer_state.lookup counterparty_node_id with
  | none =>
      (st, Except.error (APIError.APIMisuseError
        ("No existing state with counterparty " ++ toString counterparty_node_id)))
  | some ps =>
    match ps.outbound_channels_by_order_id.lookup order_id with
    | none =>
        (st, Except.error (APIError.APIMisuseError
          ("Channel with order_id " ++ order_id.id ++ " not found")))
    | some outbound_channel =>
        let config := outbound_channel.config
        (enqueue_response st counterparty_node_id request_id
            (LSPS1Response.GetOrder
              { order_id := order_id, order := config.order
                order_state := order_state
                created_at := config.created_at, expires_at := config.expires_at
                payment := config.payment, channel := channel }),
          Except.ok ())

/-- Embeds `handle_message` — the single transport-facing entry point.  A `Response`
message is a protocol violation and is rejected without mutating state
(in release builds the `debug_assert!` is a no-op and an error returns). -/
def handle_message (cfg : LSPS1ServiceConfig) (st : ServiceState)
    (message : LSPS1Message) (counterparty_node_id : PublicKey) :
    ServiceState × HandlerResult :=
  match message with
  | LSPS1Message.Request request_id request =>
    match request with
    | LSPS1Request.GetInfo _ =>
        handle_get_info_request cfg st request_id counterparty_node_id
    | LSPS1Request.CreateOrder params =>
        handle_create_order_request cfg st request_id counterparty_node_id params
    | LSPS1Request.GetOrder params =>
        handle_get_order_request st request_id counterparty_node_id params
  | _ =>
      (st, HandlerResult.err
        { err := "Service handler received LSPS1 response message from node " ++
            toString counterparty_node_id ++ ". This should never happen."
          action := ErrorAction.IgnoreAndLog })

/-- One externally triggered operation of the handler: a transport message,
or one of the two business callback APIs.  The `order_id` argument of
`send_payment_details` ranges over all values the injected entropy source
could produce. -/
inductive Step (cfg : LSPS1ServiceConfig) : ServiceState → ServiceState → Prop
  | handle_message (st : ServiceState) (msg : LSPS1Message) (cp : PublicKey) :
      Step cfg st (handle_message cfg st msg cp).1
  | send_payment_details (st : ServiceState) (rid : RequestId) (cp : PublicKey)
      (payment : OrderPayment) (created_at expires_at : DateTime) (oid : OrderId) :
      Step cfg st (send_payment_details st rid cp payment created_at expires_at oid).1
  | update_order_status (st : ServiceState) (rid : RequestId) (cp : PublicKey)
      (oid : OrderId) (ost : OrderState) (chan : Option ChannelInfo) :
      Step cfg st (update_order_status st rid cp oid ost chan).1

/-- States reachable from a fresh handler through the exposed operations. -/
inductive Reachable (cfg : LSPS1ServiceConfig) : ServiceState → Prop
  | init : Reachable cfg ServiceState.initial
  | step {s s' : ServiceState} : Reachable cfg s → Step cfg s s' → Reachable cfg s'

/-! Concrete scenario data, used to instantiate the theorems. -/

/-- A provider configuration with both website and supported options present. -/
def exampleConfig : LSPS1ServiceConfig :=
  { token := none
    options_supported := some { min_capacity := 1, max_capacity := 100 }
    website := some "http://lsp.example" }

/-- A provider configuration whose supported options are absent. -/
def noOptionsConfig : LSPS1ServiceConfig :=
  { token := none, options_supported := none, website := some "http://lsp.example" }

def rid1 : RequestId := ⟨"request-1"⟩

def rid2 : RequestId := ⟨"request-2"⟩

def rid3 : RequestId := ⟨"request-3"⟩

def peer1 : PublicKey := 3

def order1 : OrderParams := { capacity := 42 }

def payment1 : OrderPayment := { invoice := "lnbc1" }

def oid1 : OrderId := ⟨"aabbcc"⟩

/-- State after peer1's valid `CreateOrder` request (request id `rid1`). -/
def stepA : ServiceState :=
  (handle_message exampleConfig ServiceState.initial
    (LSPS1Message.Request rid1 (LSPS1Request.CreateOrder { order := order1 })) peer1).1

/-- The peer state stored for `peer1` in `stepA`. -/
def psA : PeerState :=
  { outbound_channels_by_order_id := []
    request_to_cid := []
    pending_requests := [(rid1, LSPS1Request.CreateOrder { order := order1 })] }

/-- State after the business layer supplies payment details for `rid1`. -/
def stepB : ServiceState :=
  (send_payment_details stepA rid1 peer1 payment1 10 20 oid1).1

/-- The order record created in `stepB`. -/
def chB : OutboundCRChannel := OutboundCRChannel.new order1 10 20 oid1 payment1

/-- The peer state stored for `peer1` in `stepB`. -/
def psB : PeerState :=
  { outbound_channels_by_order_id := [(oid1, chB)]
    request_to_cid := []
    pending_requests := [] }

/-- State after peer1's first `GetOrder` poll (request id `rid2`). -/
def stepC : ServiceState :=
  (handle_message exampleConfig stepB
    (LSPS1Message.Request rid2 (LSPS1Request.GetOrder { order_id := oid1 })) peer1).1

/-- The order record of `stepC`: internal state advanced to `WaitingPayment`. -/
def chWaiting : OutboundCRChannel :=
  { state := OutboundRequestState.WaitingPayment oid1
    config := { order := order1, created_at := 10, expires_at := 20, payment := payment1 } }

/-- The peer state stored for `peer1` in `stepC`. -/
def psC : PeerState :=
  { outbound_channels_by_order_id := [(oid1, chWaiting)]
    request_to_cid := []
    pending_requests := [(rid2, LSPS1Request.GetOrder { order_id := oid1 })] }

/-- An order record already in the terminal `Ready` state. -/
def chReady : OutboundCRChannel :=
  { state := OutboundRequestState.Ready
    config := { order := order1, created_at := 10, expires_at := 20, payment := payment1 } }

/-- A peer state whose pending request for `rid1` is a `GetOrder`, not a
`CreateOrder`. -/
def psGetOrderPending : PeerState :=
  { outbound_channels_by_order_id := []
    request_to_cid := []
    pending_requests := [(rid1, LSPS1Request.GetOrder { order_id := oid1 })] }

/-- A service state holding `psGetOrderPending` for `peer1`. -/
def stGetOrderPending : ServiceState :=
  { per_peer_state := [(peer1, psGetOrderPending)]
    pending_messages := []
    pending_events := [] }

/-! Lemmas about the association maps. -/

theorem AList.lookup_cons {α β : Type} [DecidableEq α] (p : α × β) (t : AList α β)
    (k : α) : AList.lookup (p :: t) k = if p.1 = k then some p.2 else t.lookup k := by
  by_cases h : p.1 = k <;> simp [AList.lookup, List.find?_cons, h]

theorem AList.erase_cons {α β : Type} [DecidableEq α] (p : α × β) (t : AList α β)
    (k : α) :
    AList.erase (p :: t) k = if p.1 = k then t.erase k else p :: t.erase k := by
  by_cases h : p.1 = k <;> simp [AList.erase, List.filter_cons, h]

theorem AList.lookup_erase_self {α β : Type} [DecidableEq α] (m : AList α β) (k : α) :
    (m.erase k).lookup k = none := by
  induction m with
  | nil => rfl
  | cons p t ih =>
    rw [AList.erase_cons]
    by_cases h : p.1 = k
    · rw [if_pos h]; exact ih
    · rw [if_neg h, AList.lookup_cons, if_neg h]; exact ih

theorem AList.lookup_erase_ne {α β : Type} [DecidableEq α] (m : AList α β)
    (k k' : α) (h : k' ≠ k) : (m.erase k).lookup k' = m.lookup k' := by
  induction m with
  | nil => rfl
  | cons p t ih =>
    rw [AList.erase_cons]
    by_cases hp : p.1 = k
    · rw [if_pos hp, ih, AList.lookup_cons,
        if_neg (fun e : p.1 = k' => h (e ▸ hp ▸ rfl))]
    · rw [if_neg hp, AList.lookup_cons, AList.lookup_cons]
      by_cases hk : p.1 = k'
      · rw [if_pos hk, if_pos hk]
      · rw [if_neg hk, if_neg hk]; exact ih

theorem AList.lookup_insert_self {α β : Type} [DecidableEq α] (m : AList α β)
    (k : α) (v : β) : (m.insert k v).lookup k = some v := by
  rw [AList.insert, AList.lookup_cons, if_pos rfl]

theorem AList.lookup_insert_ne {α β : Type} [DecidableEq α] (m : AList α β)
    (k : α) (v : β) (k' : α) (h : k' ≠ k) :
    (m.insert k v).lookup k' = m.lookup k' := by
  rw [AList.insert, AList.lookup_cons, if_neg (fun e : k = k' => h e.symm),
    AList.lookup_erase_ne m k k' h]

theorem AList.mem_of_mem_erase {α β : Type} [DecidableEq α] {p : α × β}
    {m : AList α β} {k : α} (h : p ∈ m.erase k) : p ∈ m :=
  (List.mem_filter.mp h).1

theorem AList.eq_or_mem_of_mem_insert {α β : Type} [DecidableEq α] {p : α × β}
    {m : AList α β} {k : α} {v : β} (h : p ∈ m.insert k v) : p = (k, v) ∨ p ∈ m := by
  rcases List.mem_cons.mp h with h' | h'
  · exact Or.inl h'
  · exact Or.inr (AList.mem_of_mem_erase h')

theorem AList.mem_of_lookup_eq_some {α β : Type} [DecidableEq α] {m : AList α β}
    {k : α} {v : β} (h : m.lookup k = some v) : (k, v) ∈ m := by
  unfold AList.lookup at h
  cases hf : m.find? (fun p => decide (p.1 = k)) with
  | none => rw [hf] at h; cases h
  | some q =>
    rw [hf] at h
    have hm := List.mem_of_find?_eq_some hf
    have hq := List.find?_some hf
    have h2 : q.2 = v := Option.some.inj h
    simp only [decide_eq_true_eq] at hq
    cases q with
    | mk a b =>
      simp only at hq h2
      subst hq; subst h2; exact hm

/-! Branch equations for the handlers. -/

theorem handle_get_info_eq_no_website (cfg : LSPS1ServiceConfig) (st : ServiceState)
    (rid : RequestId) (cp : PublicKey) (hw : cfg.website = none) :
    handle_get_info_request cfg st rid cp = (st, HandlerResult.panicked) := by
  unfold handle_get_info_request; rw [hw]

theorem handle_get_info_eq_no_options (cfg : LSPS1ServiceConfig) (st : ServiceState)
    (rid : RequestId) (cp : PublicKey) (w : String) (hw : cfg.website = some w)
    (ho : cfg.options_supported = none) :
    handle_get_info_request cfg st rid cp = (st, HandlerResult.panicked) := by
  unfold handle_get_info_request; rw [hw, ho]

theorem handle_get_info_eq_ok (cfg : LSPS1ServiceConfig) (st : ServiceState)
    (rid : RequestId) (cp : PublicKey) (w : String) (options : OptionsSupported)
    (hw : cfg.website = some w) (ho : cfg.options_supported = some options) :
    handle_get_info_request cfg st rid cp =
      (enqueue_response st cp rid
        (LSPS1Response.GetInfo { website := w, options := options }),
       HandlerResult.ok) := by
  unfold handle_get_info_request; rw [hw, ho]

theorem handle_create_order_eq_no_options (cfg : LSPS1ServiceConfig)
    (st : ServiceState) (rid : RequestId) (cp : PublicKey)
    (params : CreateOrderRequest) (ho : cfg.options_supported = none) :
    handle_create_order_request cfg st rid cp params = (st, HandlerResult.panicked) := by
  unfold handle_create_order_request; rw [ho]

theorem handle_create_order_eq_invalid (cfg : LSPS1ServiceConfig)
    (st : ServiceState) (rid : RequestId) (cp : PublicKey)
    (params : CreateOrderRequest) (options : OptionsSupported)
    (ho : cfg.options_supported = some options)
    (hv : is_valid params.order options = false) :
    handle_create_order_request cfg st rid cp params =
      (enqueue_response st cp rid
        (LSPS1Response.CreateOrderError
          { code := LSPS1_CREATE_ORDER_REQUEST_ORDER_MISMATCH_ERROR_CODE
            message := "Order does not match options supported by LSP server"
            data := some ("Supported options are " ++ options.debugStr) }),
       HandlerResult.err
        { err := "Client order does not match any supported options: " ++
            params.order.debugStr
          action := ErrorAction.IgnoreAndLog }) := by
  unfold handle_create_order_request
  simp only [ho, hv]
  rfl

theorem handle_create_order_eq_valid (cfg : LSPS1ServiceConfig)
    (st : ServiceState) (rid : RequestId) (cp : PublicKey)
    (params : CreateOrderRequest) (options : OptionsSupported)
    (ho : cfg.options_supported = some options)
    (hv : is_valid params.order options = true) :
    handle_create_order_request cfg st rid cp params =
      (enqueue_event
        { st with per_peer_state := (st.per_peer_state.insert cp
            ({ (st.per_peer_state.lookup cp).getD PeerState.default with
                pending_requests :=
                  ((st.per_peer_state.lookup cp).getD
                      PeerState.default).pending_requests.insert rid
                    (LSPS1Request.CreateOrder params) })) }
        (LSPS1ServiceEvent.RequestForPaymentDetails rid cp params.order),
       HandlerResult.ok) := by
  unfold handle_create_order_request
  simp only [ho, hv]
  rfl

theorem send_payment_details_eq_no_peer (st : ServiceState) (rid : RequestId)
    (cp : PublicKey) (payment : OrderPayment) (created_at expires_at : DateTime)
    (oid : OrderId) (hps : st.per_peer_state.lookup cp = none) :
    send_payment_details st rid cp payment created_at expires_at oid =
      (st, Except.error (APIError.APIMisuseError
        ("No state for the counterparty exists: " ++ toString cp))) := by
  unfold send_payment_details; rw [hps]

theorem send_payment_details_eq_create (st : ServiceState) (rid : RequestId)
    (cp : PublicKey) (payment : OrderPayment) (created_at expires_at : DateTime)
    (oid : OrderId) (ps : PeerState) (params : CreateOrderRequest)
    (hps : st.per_peer_state.lookup cp = some ps)
    (hreq : ps.pending_requests.lookup rid = some (LSPS1Request.CreateOrder params)) :
    send_payment_details st rid cp payment created_at expires_at oid =
      (enqueue_response
        { st with per_peer_state := (st.per_peer_state.insert cp
            ({ ps with
                pending_requests := ps.pending_requests.erase rid
                outbound_channels_by_order_id :=
                  ps.outbound_channels_by_order_id.insert oid
                    (OutboundCRChannel.new params.order created_at expires_at oid
                      payment) })) }
        cp rid
        (LSPS1Response.CreateOrder
          { order := params.order, order_id := oid
            order_state := OrderState.Created
            created_at := created_at, expires_at := expires_at
            payment := payment, channel := none }),
       Except.ok ()) := by
  unfold send_payment_details
  simp only [hps, hreq]
  rfl

theorem send_payment_details_eq_other (st : ServiceState) (rid : RequestId)
    (cp : PublicKey) (payment : OrderPayment) (created_at expires_at : DateTime)
    (oid : OrderId) (ps : PeerState) (req : LSPS1Request)
    (hps : st.per_peer_state.lookup cp = some ps)
    (hreq : ps.pending_requests.lookup rid = some req)
    (hne : ∀ p : CreateOrderRequest, req ≠ LSPS1Request.CreateOrder p) :
    send_payment_details st rid cp payment created_at expires_at oid =
      ({ st with per_peer_state := (st.per_peer_state.insert cp
          ({ ps with pending_requests := ps.pending_requests.erase rid })) },
       Except.error (APIError.APIMisuseError
        ("No pending buy request for request_id: " ++ rid.id))) := by
  cases req with
  | CreateOrder p => exact absurd rfl (hne p)
  | GetInfo p =>
    unfold send_payment_details
    simp only [hps, hreq]
  | GetOrder p =>
    unfold send_payment_details
    simp only [hps, hreq]

theorem send_payment_details_eq_absent (st : ServiceState) (rid : RequestId)
    (cp : PublicKey) (payment : OrderPayment) (created_at expires_at : DateTime)
    (oid : OrderId) (ps : PeerState)
    (hps : st.per_peer_state.lookup cp = some ps)
    (hreq : ps.pending_requests.lookup rid = none) :
    send_payment_details st rid cp payment created_at expires_at oid =
      (st, Except.error (APIError.APIMisuseError
        ("No pending buy request for request_id: " ++ rid.id))) := by
  unfold send_payment_details
  simp only [hps, hreq]

theorem handle_get_order_eq_no_peer (st : ServiceState) (rid : RequestId)
    (cp : PublicKey) (params : GetOrderRequest)
    (hps : st.per_peer_state.lookup cp = none) :
    handle_get_order_request st rid cp params =
      (st, HandlerResult.err
        { err := "Received error response for a create order request from an unknown counterparty (" ++
            toString cp ++ ")"
          action := ErrorAction.IgnoreAndLog }) := by
  unfold handle_get_order_request; rw [hps]

theorem handle_get_order_eq_unknown_order (st : ServiceState) (rid : RequestId)
    (cp : PublicKey) (params : GetOrderRequest) (ps : PeerState)
    (hps : st.per_peer_state.lookup cp = some ps)
    (hch : ps.outbound_channels_by_order_id.lookup params.order_id = none) :
    handle_get_order_request st rid cp params =
      (st, HandlerResult.err
        { err := "Received get order request for unknown order id " ++
            params.order_id.id
          action := ErrorAction.IgnoreAndLog }) := by
  unfold handle_get_order_request
  simp only [hps, hch]

theorem handle_get_order_eq_fail (st : ServiceState) (rid : RequestId)
    (cp : PublicKey) (params : GetOrderRequest) (ps : PeerState)
    (ch ch1 : OutboundCRChannel) (e : LightningError)
    (hps : st.per_peer_state.lookup cp = some ps)
    (hch : ps.outbound_channels_by_order_id.lookup params.order_id = some ch)
    (hfail : ch.awaiting_payment = (ch1, some e)) :
    handle_get_order_request st rid cp params =
      (enqueue_event
        { st with per_peer_state := (st.per_peer_state.insert cp
            ({ ps with outbound_channels_by_order_id :=
                ps.outbound_channels_by_order_id.erase params.order_id })) }
        (LSPS1ServiceEvent.Refund rid cp params.order_id),
       HandlerResult.err e) := by
  unfold handle_get_order_request
  simp only [hps, hch, hfail]

theorem handle_get_order_eq_ok (st : ServiceState) (rid : RequestId)
    (cp : PublicKey) (params : GetOrderRequest) (ps : PeerState)
    (ch ch' : OutboundCRChannel)
    (hps : st.per_peer_state.lookup cp = some ps)
    (hch : ps.outbound_channels_by_order_id.lookup params.order_id = some ch)
    (hok : ch.awaiting_payment = (ch', none)) :
    handle_get_order_request st rid cp params =
      (enqueue_event
        { st with per_peer_state := (st.per_peer_state.insert cp
            ({ ps with
                outbound_channels_by_order_id :=
                  ps.outbound_channels_by_order_id.insert params.order_id ch'
                pending_requests :=
                  ps.pending_requests.insert rid (LSPS1Request.GetOrder params) })) }
        (LSPS1ServiceEvent.CheckPaymentConfirmation rid cp params.order_id),
       HandlerResult.ok) := by
  unfold handle_get_order_request
  simp only [hps, hch, hok]

theorem update_order_status_eq_no_peer (st : ServiceState) (rid : RequestId)
    (cp : PublicKey) (oid : OrderId) (ost : OrderState) (chan : Option ChannelInfo)
    (hps : st.per_peer_state.lookup cp = none) :
    update_order_status st rid cp oid ost chan =
      (st, Except.error (APIError.APIMisuseError
        ("No existing state with counterparty " ++ toString cp))) := by
  unfold update_order_status; rw [hps]

theorem update_order_status_eq_unknown_order (st : ServiceState) (rid : RequestId)
    (cp : PublicKey) (oid : OrderId) (ost : OrderState) (chan : Option ChannelInfo)
    (ps : PeerState) (hps : st.per_peer_state.lookup cp = some ps)
    (hch : ps.outbound_channels_by_order_id.lookup oid = none) :
    update_order_status st rid cp oid ost chan =
      (st, Except.error (APIError.APIMisuseError
        ("Channel with order_id " ++ oid.id ++ " not found"))) := by
  unfold update_order_status
  simp only [hps, hch]

theorem update_order_status_eq_found (st : ServiceState) (rid : RequestId)
    (cp : PublicKey) (oid : OrderId) (ost : OrderState) (chan : Option ChannelInfo)
    (ps : PeerState) (ch : OutboundCRChannel)
    (hps : st.per_peer_state.lookup cp = some ps)
    (hch : ps.outbound_channels_by_order_id.lookup oid = some ch) :
    update_order_status st rid cp oid ost chan =
      (enqueue_response st cp rid
        (LSPS1Response.GetOrder
          { order_id := oid, order := ch.config.order
            order_state := ost
            created_at := ch.config.created_at, expires_at := ch.config.expires_at
            payment := ch.config.payment, channel := chan }),
       Except.ok ()) := by
  unfold update_order_status
  simp only [hps, hch]

/-! The auxiliary correlation map is dead state. -/

/-- Every counterparty entry of the registry has an empty `request_to_cid` map. -/
def cid_empty (st : ServiceState) : Prop :=
  ∀ p ∈ st.per_peer_state, (Prod.snd p).request_to_cid = []

theorem cid_empty_of_insert {m : AList PublicKey PeerState} {cp : PublicKey}
    {ps : PeerState} (h : ∀ p ∈ m, (Prod.snd p).request_to_cid = [])
    (hps : ps.request_to_cid = []) :
    ∀ p ∈ m.insert cp ps, (Prod.snd p).request_to_cid = [] := by
  intro p hp
  rcases AList.eq_or_mem_of_mem_insert hp with rfl | hp'
  · exact hps
  · exact h p hp'

theorem cid_empty_get_info (cfg : LSPS1ServiceConfig) (st : ServiceState)
    (rid : RequestId) (cp : PublicKey) (h : cid_empty st) :
    cid_empty (handle_get_info_request cfg st rid cp).1 := by
  cases hw : cfg.website with
  | none => rw [handle_get_info_eq_no_website cfg st rid cp hw]; exact h
  | some w =>
    cases ho : cfg.options_supported with
    | none => rw [handle_get_info_eq_no_options cfg st rid cp w hw ho]; exact h
    | some options =>
      rw [handle_get_info_eq_ok cfg st rid cp w options hw ho]; exact h

theorem cid_empty_create_order (cfg : LSPS1ServiceConfig) (st : ServiceState)
    (rid : RequestId) (cp : PublicKey) (params : CreateOrderRequest)
    (h : cid_empty st) :
    cid_empty (handle_create_order_request cfg st rid cp params).1 := by
  cases ho : cfg.options_supported with
  | none => rw [handle_create_order_eq_no_options cfg st rid cp params ho]; exact h
  | some options =>
    cases hv : is_valid params.order options with
    | false =>
      rw [handle_create_order_eq_invalid cfg st rid cp params options ho hv]; exact h
    | true =>
      rw [handle_create_order_eq_valid cfg st rid cp params options ho hv]
      refine cid_empty_of_insert h ?_
      cases hl : st.per_peer_state.lookup cp with
      | none => rfl
      | some ps0 =>
        simpa [hl] using h _ (AList.mem_of_lookup_eq_some hl)

theorem cid_empty_send_payment_details (st : ServiceState) (rid : RequestId)
    (cp : PublicKey) (payment : OrderPayment) (created_at expires_at : DateTime)
    (oid : OrderId) (h : cid_empty st) :
    cid_empty (send_payment_details st rid cp payment created_at expires_at oid).1 := by
  cases hps : st.per_peer_state.lookup cp with
  | none =>
    rw [send_payment_details_eq_no_peer st rid cp payment created_at expires_at oid hps]
    exact h
  | some ps =>
    have hcid : ps.request_to_cid = [] := h _ (AList.mem_of_lookup_eq_some hps)
    cases hreq : ps.pending_requests.lookup rid with
    | none =>
      rw [send_payment_details_eq_absent st rid cp payment created_at expires_at oid
        ps hps hreq]
      exact h
    | some req =>
      cases req with
      | CreateOrder p =>
        rw [send_payment_details_eq_create st rid cp payment created_at expires_at oid
          ps p hps hreq]
        exact cid_empty_of_insert h hcid
      | GetInfo p =>
        rw [send_payment_details_eq_other st rid cp payment created_at expires_at oid
          ps (LSPS1Request.GetInfo p) hps hreq (fun q hq => by cases hq)]
        exact cid_empty_of_insert h hcid
      | GetOrder p =>
        rw [send_payment_details_eq_other st rid cp payment created_at expires_at oid
          ps (LSPS1Request.GetOrder p) hps hreq (fun q hq => by cases hq)]
        exact cid_empty_of_insert h hcid

theorem cid_empty_get_order (st : ServiceState) (rid : RequestId) (cp : PublicKey)
    (params : GetOrderRequest) (h : cid_empty st) :
    cid_empty (handle_get_order_request st rid cp params).1 := by
  cases hps : st.per_peer_state.lookup cp with
  | none => rw [handle_get_order_eq_no_peer st rid cp params hps]; exact h
  | some ps =>
    have hcid : ps.request_to_cid = [] := h _ (AList.mem_of_lookup_eq_some hps)
    cases hch : ps.outbound_channels_by_order_id.lookup params.order_id with
    | none => rw [handle_get_order_eq_unknown_order st rid cp params ps hps hch]; exact h
    | some ch =>
      cases hap : ch.awaiting_payment with
      | mk ch1 oe =>
        cases oe with
        | some e =>
          rw [handle_get_order_eq_fail st rid cp params ps ch ch1 e hps hch hap]
          exact cid_empty_of_insert h hcid
        | none =>
          rw [handle_get_order_eq_ok st rid cp params ps ch ch1 hps hch hap]
          exact cid_empty_of_insert h hcid

theorem cid_empty_update_order_status (st : ServiceState) (rid : RequestId)
    (cp : PublicKey) (oid : OrderId) (ost : OrderState) (chan : Option ChannelInfo)
    (h : cid_empty st) :
    cid_empty (update_order_status st rid cp oid ost chan).1 := by
  cases hps : st.per_peer_state.lookup cp with
  | none => rw [update_order_status_eq_no_peer st rid cp oid ost chan hps]; exact h
  | some ps =>
    cases hch : ps.outbound_channels_by_order_id.lookup oid with
    | none =>
      rw [update_order_status_eq_unknown_order st rid cp oid ost chan ps hps hch]
      exact h
    | some ch =>
      rw [update_order_status_eq_found st rid cp oid ost chan ps ch hps hch]
      exact h

theorem cid_empty_handle_message (cfg : LSPS1ServiceConfig) (st : ServiceState)
    (msg : LSPS1Message) (cp : PublicKey) (h : cid_empty st) :
    cid_empty (handle_message cfg st msg cp).1 := by
  cases msg with
  | Request rid req =>
    cases req with
    | GetInfo p => exact cid_empty_get_info cfg st rid cp h
    | CreateOrder params => exact cid_empty_create_order cfg st rid cp params h
    | GetOrder params => exact cid_empty_get_order st rid cp params h
  | Response rid resp => exact h

theorem cid_empty_of_step {cfg : LSPS1ServiceConfig} {s s' : ServiceState}
    (hs : Step cfg s s') (h : cid_empty s) : cid_empty s' := by
  cases hs with
  | handle_message msg cp => exact cid_empty_handle_message cfg s msg cp h
  | send_payment_details rid cp payment ca ea oid =>
    exact cid_empty_send_payment_details s rid cp payment ca ea oid h
  | update_order_status rid cp oid ost chan =>
    exact cid_empty_update_order_status s rid cp oid ost chan h

theorem cid_empty_of_reachable {cfg : LSPS1ServiceConfig} {st : ServiceState}
    (h : Reachable cfg st) : cid_empty st := by
  induction h with
  | init => intro p hp; cases hp
  | step _ hs ih => exact cid_empty_of_step hs ih

/-! Claim theorems. -/

theorem todo_msg_ne_empty (x : String) :
    "TODO. JIT Channel was in state: " ++ x ≠ "" := by
  intro h
  have hd : ("TODO. JIT Channel was in state: " ++ x).data = "".data :=
    congrArg String.data h
  simp at hd

/-- C8: `awaiting_payment` succeeds exactly when the state is
`OrderCreated{order_id}`, producing `WaitingPayment` with the same order id;
from `WaitingPayment` or `Ready` it returns a state error carrying a
descriptive (non-empty) message, and the record's state is left unchanged. -/
theorem awaiting_payment_only_from_order_created (s : OutboundRequestState)
    (oid : OrderId) (ch : OutboundCRChannel) :
    (s = OutboundRequestState.OrderCreated oid →
        s.awaiting_payment =
          Except.ok (OutboundRequestState.WaitingPayment oid)) ∧
    (s.awaiting_payment = Except.ok (OutboundRequestState.WaitingPayment oid) →
        s = OutboundRequestState.OrderCreated oid) ∧
    ((s = OutboundRequestState.WaitingPayment oid ∨ s = OutboundRequestState.Ready) →
        s.awaiting_payment = Except.error
          ⟨"TODO. JIT Channel was in state: " ++ s.debugStr⟩ ∧
        "TODO. JIT Channel was in state: " ++ s.debugStr ≠ "" ∧
        (ch.state = s → ch.awaiting_payment = (ch, some
          { err := "TODO. JIT Channel was in state: " ++ s.debugStr
            action := ErrorAction.IgnoreAndLog }))) := by
  cases s with
  | OrderCreated o =>
    refine ⟨?_, ?_, ?_⟩
    · intro h
      injection h with h1
      rw [h1]
      rfl
    · intro h
      simp only [OutboundRequestState.awaiting_payment, Except.ok.injEq,
        OutboundRequestState.WaitingPayment.injEq] at h
      rw [h]
    · rintro (h | h) <;> cases h
  | WaitingPayment o =>
    refine ⟨?_, ?_, ?_⟩
    · intro h; cases h
    · intro h
      simp only [OutboundRequestState.awaiting_payment] at h
      cases h
    · intro h
      refine ⟨rfl, todo_msg_ne_empty _, ?_⟩
      intro hch
      unfold OutboundCRChannel.awaiting_payment
      rw [hch]
      rfl
  | Ready =>
    refine ⟨?_, ?_, ?_⟩
    · intro h; cases h
    · intro h
      simp only [OutboundRequestState.awaiting_payment] at h
      cases h
    · intro h
      refine ⟨rfl, todo_msg_ne_empty _, ?_⟩
      intro hch
      unfold OutboundCRChannel.awaiting_payment
      rw [hch]
      rfl

/-- Witness for C8: the transition from the terminal `Ready` state fails with
the descriptive state error and leaves the record unchanged. -/
theorem awaiting_payment_only_from_order_created_witness :
    OutboundRequestState.Ready.awaiting_payment = Except.error
      ⟨"TODO. JIT Channel was in state: " ++ OutboundRequestState.Ready.debugStr⟩ ∧
    chReady.awaiting_payment = (chReady, some
      { err := "TODO. JIT Channel was in state: " ++ OutboundRequestState.Ready.debugStr
        action := ErrorAction.IgnoreAndLog }) := by
  have h := (awaiting_payment_only_from_order_created
    OutboundRequestState.Ready oid1 chReady).2.2 (Or.inr rfl)
  exact ⟨h.1, h.2.2 rfl⟩

/-- C2: with the supported-options configuration absent, handling a `GetInfo`
request panics on the `unwrap` instead of returning the protocol error the
code builds, and no response is enqueued (the state is untouched). -/
theorem get_info_missing_options_panics (st : ServiceState) (rid : RequestId)
    (cp : PublicKey) :
    handle_get_info_request noOptionsConfig st rid cp = (st, HandlerResult.panicked) ∧
    handle_message noOptionsConfig st
      (LSPS1Message.Request rid (LSPS1Request.GetInfo {})) cp =
      (st, HandlerResult.panicked) := by
  exact ⟨rfl, rfl⟩

/-- C3: in the reachable state `stepC` the pending `GetOrder` entry for `rid2`
exists; `update_order_status` answers that request (enqueues the `GetOrder`
response for `rid2`) yet the pending entry for `rid2` is still present
afterwards — the pending-request entry is not cleared when the response is
produced. -/
theorem update_order_status_leaves_pending_entry :
    Reachable exampleConfig stepC ∧
    (stepC.per_peer_state.lookup peer1).map
        (fun ps => ps.pending_requests.lookup rid2) =
      some (some (LSPS1Request.GetOrder { order_id := oid1 })) ∧
    (update_order_status stepC rid2 peer1 oid1 OrderState.Completed none).2 =
      Except.ok () ∧
    (update_order_status stepC rid2 peer1 oid1 OrderState.Completed none).1.pending_messages =
      stepC.pending_messages ++
        [(peer1, LSPS1Message.Response rid2 (LSPS1Response.GetOrder
          { order := order1, order_id := oid1, order_state := OrderState.Completed
            created_at := 10, expires_at := 20, payment := payment1
            channel := none }))] ∧
    ((update_order_status stepC rid2 peer1 oid1 OrderState.Completed none).1.per_peer_state.lookup
        peer1).map (fun ps => ps.pending_requests.lookup rid2) =
      some (some (LSPS1Request.GetOrder { order_id := oid1 })) := by
  refine ⟨?_, rfl, rfl, rfl, rfl⟩
  exact Reachable.step
    (Reachable.step
      (Reachable.step Reachable.init (Step.handle_message _ _ _))
      (Step.send_payment_details _ _ _ _ _ _ _))
    (Step.handle_message _ _ _)

/-- C4: a `CreateOrder` request whose order fails validation gets a
`CreateOrderError` response with the fixed mismatch code, message and the
supported options as diagnostic data; the handler returns an error and
creates no state (registry and event queue untouched). -/
theorem create_order_invalid_no_state (cfg : LSPS1ServiceConfig)
    (st : ServiceState) (rid : RequestId) (cp : PublicKey)
    (params : CreateOrderRequest) (options : OptionsSupported)
    (ho : cfg.options_supported = some options)
    (hv : is_valid params.order options = false) :
    (handle_create_order_request cfg st rid cp params).1.pending_messages =
      st.pending_messages ++ [(cp, LSPS1Message.Response rid
        (LSPS1Response.CreateOrderError
          { code := LSPS1_CREATE_ORDER_REQUEST_ORDER_MISMATCH_ERROR_CODE
            message := "Order does not match options supported by LSP server"
            data := some ("Supported options are " ++ options.debugStr) }))] ∧
    (handle_create_order_request cfg st rid cp params).2 = HandlerResult.err
      { err := "Client order does not match any supported options: " ++
          params.order.debugStr
        action := ErrorAction.IgnoreAndLog } ∧
    (handle_create_order_request cfg st rid cp params).1.per_peer_state =
      st.per_peer_state ∧
    (handle_create_order_request cfg st rid cp params).1.pending_events =
      st.pending_events := by
  rw [handle_create_order_eq_invalid cfg st rid cp params options ho hv]
  exact ⟨rfl, rfl, rfl, rfl⟩

/-- Witness for C4: an order of capacity 1000 violates the advertised maximum
of 100; the error response is enqueued and no state is created. -/
theorem create_order_invalid_no_state_witness :
    (handle_create_order_request exampleConfig ServiceState.initial rid1 peer1
        { order := { capacity := 1000 } }).1.per_peer_state =
      ServiceState.initial.per_peer_state ∧
    (handle_create_order_request exampleConfig ServiceState.initial rid1 peer1
        { order := { capacity := 1000 } }).2 = HandlerResult.err
      { err := "Client order does not match any supported options: " ++
          OrderParams.debugStr { capacity := 1000 }
        action := ErrorAction.IgnoreAndLog } ∧
    (handle_create_order_request exampleConfig ServiceState.initial rid1 peer1
        { order := { capacity := 1000 } }).1.pending_messages =
      ServiceState.initial.pending_messages ++ [(peer1, LSPS1Message.Response rid1
        (LSPS1Response.CreateOrderError
          { code := LSPS1_CREATE_ORDER_REQUEST_ORDER_MISMATCH_ERROR_CODE
            message := "Order does not match options supported by LSP server"
            data := some ("Supported options are " ++
              OptionsSupported.debugStr { min_capacity := 1, max_capacity := 100 }) }))] := by
  have h := create_order_invalid_no_state exampleConfig ServiceState.initial rid1
    peer1 { order := { capacity := 1000 } }
    { min_capacity := 1, max_capacity := 100 } rfl (by decide)
  exact ⟨h.2.2.1, h.2.1, h.1⟩

/-- C9: `update_order_status` never mutates the store — the registry and the
event queue are unchanged on every input; unknown counterparty or unknown
order id yields a misuse error with nothing enqueued, and a found order only
enqueues a `GetOrder` response echoing its immutable configuration plus the
caller-supplied status label and channel info. -/
theorem update_order_status_no_mutation (st : ServiceState) (rid : RequestId)
    (cp : PublicKey) (oid : OrderId) (ost : OrderState)
    (chan : Option ChannelInfo) :
    (update_order_status st rid cp oid ost chan).1.per_peer_state =
      st.per_peer_state ∧
    (update_order_status st rid cp oid ost chan).1.pending_events =
      st.pending_events ∧
    (st.per_peer_state.lookup cp = none →
      update_order_status st rid cp oid ost chan =
        (st, Except.error (APIError.APIMisuseError
          ("No existing state with counterparty " ++ toString cp)))) ∧
    (∀ ps, st.per_peer_state.lookup cp = some ps →
      (ps.outbound_channels_by_order_id.lookup oid = none →
        update_order_status st rid cp oid ost chan =
          (st, Except.error (APIError.APIMisuseError
            ("Channel with order_id " ++ oid.id ++ " not found")))) ∧
      (∀ ch, ps.outbound_channels_by_order_id.lookup oid = some ch →
        update_order_status st rid cp oid ost chan =
          (enqueue_response st cp rid
            (LSPS1Response.GetOrder
              { order_id := oid, order := ch.config.order
                order_state := ost
                created_at := ch.config.created_at
                expires_at := ch.config.expires_at
                payment := ch.config.payment, channel := chan }),
           Except.ok ()))) := by
  refine ⟨?_, ?_, ?_, ?_⟩
  · cases hps : st.per_peer_state.lookup cp with
    | none => rw [update_order_status_eq_no_peer st rid cp oid ost chan hps]
    | some ps =>
      cases hch : ps.outbound_channels_by_order_id.lookup oid with
      | none => rw [update_order_status_eq_unknown_order st rid cp oid ost chan ps hps hch]
      | some ch =>
        rw [update_order_status_eq_found st rid cp oid ost chan ps ch hps hch]
        rfl
  · cases hps : st.per_peer_state.lookup cp with
    | none => rw [update_order_status_eq_no_peer st rid cp oid ost chan hps]
    | some ps =>
      cases hch : ps.outbound_channels_by_order_id.lookup oid with
      | none => rw [update_order_status_eq_unknown_order st rid cp oid ost chan ps hps hch]
      | some ch =>
        rw [update_order_status_eq_found st rid cp oid ost chan ps ch hps hch]
        rfl
  · intro hps
    exact update_order_status_eq_no_peer st rid cp oid ost chan hps
  · intro ps hps
    exact ⟨fun hch => update_order_status_eq_unknown_order st rid cp oid ost chan ps hps hch,
      fun ch hch => update_order_status_eq_found st rid cp oid ost chan ps ch hps hch⟩

/-- Witness for C9: reporting status for the existing order `oid1` in `stepB`
leaves the registry unchanged and succeeds. -/
theorem update_order_status_no_mutation_witness :
    (update_order_status stepB rid2 peer1 oid1 OrderState.Created none).1.per_peer_state =
      stepB.per_peer_state ∧
    (update_order_status stepB rid2 peer1 oid1 OrderState.Created none).2 =
      Except.ok () := by
  have h := update_order_status_no_mutation stepB rid2 peer1 oid1
    OrderState.Created none
  have hfound := (h.2.2.2 psB rfl).2 chB rfl
  exact ⟨h.1, by rw [hfound]⟩

/-- C5: a `GetOrder` poll against an order whose internal state is already
`WaitingPayment` fails with the state error, removes the order record from the
counterparty's order map (the pending-request map is untouched), and enqueues
exactly one `Refund` event for that counterparty, order id and request id; no
response message and no `CheckPaymentConfirmation` event is produced. -/
theorem get_order_waiting_payment_refund (st : ServiceState) (rid : RequestId)
    (cp : PublicKey) (oid oid' : OrderId) (ps : PeerState) (ch : OutboundCRChannel)
    (hps : st.per_peer_state.lookup cp = some ps)
    (hch : ps.outbound_channels_by_order_id.lookup oid = some ch)
    (hstate : ch.state = OutboundRequestState.WaitingPayment oid') :
    (handle_get_order_request st rid cp { order_id := oid }).2 = HandlerResult.err
      { err := "TODO. JIT Channel was in state: " ++ ch.state.debugStr
        action := ErrorAction.IgnoreAndLog } ∧
    ((handle_get_order_request st rid cp { order_id := oid }).1.per_peer_state.lookup
        cp).map (fun q => q.outbound_channels_by_order_id.lookup oid) = some none ∧
    ((handle_get_order_request st rid cp { order_id := oid }).1.per_peer_state.lookup
        cp).map (fun q => q.pending_requests) = some ps.pending_requests ∧
    (handle_get_order_request st rid cp { order_id := oid }).1.pending_events =
      st.pending_events ++
        [Event.LSPS1Service (LSPS1ServiceEvent.Refund rid cp oid)] ∧
    (handle_get_order_request st rid cp { order_id := oid }).1.pending_messages =
      st.pending_messages := by
  have hfail : ch.awaiting_payment = (ch, some
      { err := "TODO. JIT Channel was in state: " ++ ch.state.debugStr
        action := ErrorAction.IgnoreAndLog }) := by
    unfold OutboundCRChannel.awaiting_payment
    rw [hstate]
    rfl
  rw [handle_get_order_eq_fail st rid cp { order_id := oid } ps ch ch _ hps hch hfail]
  refine ⟨rfl, ?_, ?_, rfl, rfl⟩
  · simp [enqueue_event, AList.lookup_insert_self, AList.lookup_erase_self]
  · simp [enqueue_event, AList.lookup_insert_self]

/-- Witness for C5: the second `GetOrder` poll (request id `rid3`) against the
order of `stepC`, already in `WaitingPayment`, fails and produces exactly the
`Refund` event. -/
theorem get_order_waiting_payment_refund_witness :
    (handle_get_order_request stepC rid3 peer1 { order_id := oid1 }).2 =
      HandlerResult.err
        { err := "TODO. JIT Channel was in state: " ++ chWaiting.state.debugStr
          action := ErrorAction.IgnoreAndLog } ∧
    ((handle_get_order_request stepC rid3 peer1 { order_id := oid1 }).1.per_peer_state.lookup
        peer1).map (fun q => q.outbound_channels_by_order_id.lookup oid1) =
      some none ∧
    (handle_get_order_request stepC rid3 peer1 { order_id := oid1 }).1.pending_events =
      stepC.pending_events ++
        [Event.LSPS1Service (LSPS1ServiceEvent.Refund rid3 peer1 oid1)] := by
  have h := get_order_waiting_payment_refund stepC rid3 peer1 oid1 oid1 psC
    chWaiting rfl rfl rfl
  exact ⟨h.1, h.2.1, h.2.2.2.1⟩

/-- C6: the first `GetOrder` poll against an order in `OrderCreated` succeeds,
advances the internal state to `WaitingPayment` (same order id), records the
request id as a pending `GetOrder` request, enqueues exactly one
`CheckPaymentConfirmation` event, leaves the order retrievable, and sends no
response message. -/
theorem get_order_order_created_transition (st : ServiceState) (rid : RequestId)
    (cp : PublicKey) (oid oid0 : OrderId) (ps : PeerState) (ch : OutboundCRChannel)
    (hps : st.per_peer_state.lookup cp = some ps)
    (hch : ps.outbound_channels_by_order_id.lookup oid = some ch)
    (hstate : ch.state = OutboundRequestState.OrderCreated oid0) :
    (handle_get_order_request st rid cp { order_id := oid }).2 = HandlerResult.ok ∧
    ((handle_get_order_request st rid cp { order_id := oid }).1.per_peer_state.lookup
        cp).map (fun q => q.outbound_channels_by_order_id.lookup oid) =
      some (some { ch with state := OutboundRequestState.WaitingPayment oid0 }) ∧
    ((handle_get_order_request st rid cp { order_id := oid }).1.per_peer_state.lookup
        cp).map (fun q => q.pending_requests.lookup rid) =
      some (some (LSPS1Request.GetOrder { order_id := oid })) ∧
    (handle_get_order_request st rid cp { order_id := oid }).1.pending_events =
      st.pending_events ++
        [Event.LSPS1Service
          (LSPS1ServiceEvent.CheckPaymentConfirmation rid cp oid)] ∧
    (handle_get_order_request st rid cp { order_id := oid }).1.pending_messages =
      st.pending_messages := by
  have hok : ch.awaiting_payment =
      ({ ch with state := OutboundRequestState.WaitingPayment oid0 }, none) := by
    unfold OutboundCRChannel.awaiting_payment
    rw [hstate]
    rfl
  rw [handle_get_order_eq_ok st rid cp { order_id := oid } ps ch _ hps hch hok]
  refine ⟨rfl, ?_, ?_, rfl, rfl⟩
  · simp [enqueue_event, AList.lookup_insert_self]
  · simp [enqueue_event, AList.lookup_insert_self]

/-- Witness for C6: the first `GetOrder` poll in `stepB` succeeds and the
order is retrievable in the `WaitingPayment` state. -/
theorem get_order_order_created_transition_witness :
    (handle_get_order_request stepB rid2 peer1 { order_id := oid1 }).2 =
      HandlerResult.ok ∧
    ((handle_get_order_request stepB rid2 peer1 { order_id := oid1 }).1.per_peer_state.lookup
        peer1).map (fun q => q.outbound_channels_by_order_id.lookup oid1) =
      some (some { chB with state := OutboundRequestState.WaitingPayment oid1 }) ∧
    (handle_get_order_request stepB rid2 peer1 { order_id := oid1 }).1.pending_events =
      stepB.pending_events ++
        [Event.LSPS1Service
          (LSPS1ServiceEvent.CheckPaymentConfirmation rid2 peer1 oid1)] := by
  have h := get_order_order_created_transition stepB rid2 peer1 oid1 oid1 psB chB
    rfl rfl rfl
  exact ⟨h.1, h.2.1, h.2.2.2.1⟩

/-- C7: starting with no orders stored for the counterparty, a valid
`CreateOrder` (which sends no response, only the `RequestForPaymentDetails`
event) followed by `send_payment_details` for the same request id leaves
exactly one order in the counterparty's order map, in internal state
`OrderCreated`, and enqueues the `CreateOrder` response with the fresh order
id, echoed order, timestamps and payment terms and no channel info. -/
theorem create_order_then_send_payment_details (cfg : LSPS1ServiceConfig)
    (st : ServiceState) (rid : RequestId) (cp : PublicKey)
    (params : CreateOrderRequest) (options : OptionsSupported)
    (payment : OrderPayment) (ca ea : DateTime) (oid : OrderId)
    (ho : cfg.options_supported = some options)
    (hv : is_valid params.order options = true)
    (hempty : ∀ ps, st.per_peer_state.lookup cp = some ps →
      ps.outbound_channels_by_order_id = []) :
    (handle_create_order_request cfg st rid cp params).2 = HandlerResult.ok ∧
    (handle_create_order_request cfg st rid cp params).1.pending_messages =
      st.pending_messages ∧
    (handle_create_order_request cfg st rid cp params).1.pending_events =
      st.pending_events ++ [Event.LSPS1Service
        (LSPS1ServiceEvent.RequestForPaymentDetails rid cp params.order)] ∧
    (send_payment_details (handle_create_order_request cfg st rid cp params).1
        rid cp payment ca ea oid).2 = Except.ok () ∧
    ((send_payment_details (handle_create_order_request cfg st rid cp params).1
        rid cp payment ca ea oid).1.per_peer_state.lookup cp).map
      (fun q => q.outbound_channels_by_order_id) =
      some [(oid, OutboundCRChannel.new params.order ca ea oid payment)] ∧
    (OutboundCRChannel.new params.order ca ea oid payment).state =
      OutboundRequestState.OrderCreated oid ∧
    (send_payment_details (handle_create_order_request cfg st rid cp params).1
        rid cp payment ca ea oid).1.pending_messages =
      (handle_create_order_request cfg st rid cp params).1.pending_messages ++
        [(cp, LSPS1Message.Response rid (LSPS1Response.CreateOrder
          { order := params.order, order_id := oid
            order_state := OrderState.Created, created_at := ca, expires_at := ea
            payment := payment, channel := none }))] := by
  have hco := handle_create_order_eq_valid cfg st rid cp params options ho hv
  have hps1 : (handle_create_order_request cfg st rid cp params).1.per_peer_state.lookup cp =
      some ({ (st.per_peer_state.lookup cp).getD PeerState.default with
          pending_requests :=
            ((st.per_peer_state.lookup cp).getD PeerState.default).pending_requests.insert
              rid (LSPS1Request.CreateOrder params) }) := by
    rw [hco]
    exact AList.lookup_insert_self _ _ _
  have hreq1 : ({ (st.per_peer_state.lookup cp).getD PeerState.default with
      pending_requests :=
        ((st.per_peer_state.lookup cp).getD PeerState.default).pending_requests.insert
          rid (LSPS1Request.CreateOrder params) } : PeerState).pending_requests.lookup
        rid = some (LSPS1Request.CreateOrder params) :=
    AList.lookup_insert_self _ _ _
  have hspd := send_payment_details_eq_create
    (handle_create_order_request cfg st rid cp params).1 rid cp payment ca ea oid
    _ params hps1 hreq1
  have houts : ((st.per_peer_state.lookup cp).getD
      PeerState.default).outbound_channels_by_order_id = [] := by
    cases hl : st.per_peer_state.lookup cp with
    | none => rfl
    | some ps => exact hempty ps hl
  refine ⟨?_, ?_, ?_, ?_, ?_, rfl, ?_⟩
  · rw [hco]
  · rw [hco]; rfl
  · rw [hco]; rfl
  · rw [hspd]
  · rw [hspd]
    simp only [enqueue_response]
    rw [AList.lookup_insert_self]
    simp only [Option.map_some']
    rw [houts]
    rfl
  · rw [hspd]
    rfl

/-- Witness for C7: peer1's valid order followed by payment details yields the
single order record `(oid1, chB)`. -/
theorem create_order_then_send_payment_details_witness :
    (handle_create_order_request exampleConfig ServiceState.initial rid1 peer1
        { order := order1 }).2 = HandlerResult.ok ∧
    ((send_payment_details
        (handle_create_order_request exampleConfig ServiceState.initial rid1 peer1
          { order := order1 }).1 rid1 peer1 payment1 10 20 oid1).1.per_peer_state.lookup
        peer1).map (fun q => q.outbound_channels_by_order_id) =
      some [(oid1, OutboundCRChannel.new order1 10 20 oid1 payment1)] ∧
    (send_payment_details
        (handle_create_order_request exampleConfig ServiceState.initial rid1 peer1
          { order := order1 }).1 rid1 peer1 payment1 10 20 oid1).2 = Except.ok () := by
  have h := create_order_then_send_payment_details exampleConfig
    ServiceState.initial rid1 peer1 { order := order1 }
    { min_capacity := 1, max_capacity := 100 } payment1 10 20 oid1
    rfl (by decide) (fun ps hps => by cases hps)
  exact ⟨h.1, h.2.2.2.2.1, h.2.2.2.1⟩

/-- C1 (amended): when the request id was never recorded as a pending
`CreateOrder` request, `send_payment_details` returns a misuse error and
enqueues nothing; the store is left exactly as it was when the counterparty is
unknown or no pending entry exists for the id, but when the id maps to a
pending request of a different kind, that pending entry is removed. -/
theorem send_payment_details_without_pending_create (st : ServiceState)
    (rid : RequestId) (cp : PublicKey) (payment : OrderPayment)
    (ca ea : DateTime) (oid : OrderId) :
    (st.per_peer_state.lookup cp = none →
      send_payment_details st rid cp payment ca ea oid =
        (st, Except.error (APIError.APIMisuseError
          ("No state for the counterparty exists: " ++ toString cp)))) ∧
    (∀ ps, st.per_peer_state.lookup cp = some ps →
      (ps.pending_requests.lookup rid = none →
        send_payment_details st rid cp payment ca ea oid =
          (st, Except.error (APIError.APIMisuseError
            ("No pending buy request for request_id: " ++ rid.id)))) ∧
      (∀ req, ps.pending_requests.lookup rid = some req →
        (∀ p : CreateOrderRequest, req ≠ LSPS1Request.CreateOrder p) →
        send_payment_details st rid cp payment ca ea oid =
          ({ st with per_peer_state := (st.per_peer_state.insert cp
              ({ ps with pending_requests := ps.pending_requests.erase rid })) },
           Except.error (APIError.APIMisuseError
            ("No pending buy request for request_id: " ++ rid.id))))) :=
  ⟨fun h => send_payment_details_eq_no_peer st rid cp payment ca ea oid h,
    fun ps hps =>
      ⟨fun hr => send_payment_details_eq_absent st rid cp payment ca ea oid ps hps hr,
        fun req hr hne =>
          send_payment_details_eq_other st rid cp payment ca ea oid ps req hps hr hne⟩⟩

/-- Witness for C1 (amended): the pending entry for `rid1` is a `GetOrder`;
the call fails with the misuse error and that entry is erased. -/
theorem send_payment_details_without_pending_create_witness :
    send_payment_details stGetOrderPending rid1 peer1 payment1 10 20 oid1 =
      ({ stGetOrderPending with per_peer_state :=
          (stGetOrderPending.per_peer_state.insert peer1
            ({ psGetOrderPending with pending_requests :=
                psGetOrderPending.pending_requests.erase rid1 })) },
       Except.error (APIError.APIMisuseError
        ("No pending buy request for request_id: " ++ rid1.id))) :=
  ((send_payment_details_without_pending_create stGetOrderPending rid1 peer1
      payment1 10 20 oid1).2 psGetOrderPending rfl).2
    (LSPS1Request.GetOrder { order_id := oid1 }) rfl (fun p h => by cases h)

/-- C1 counterexample: with a pending `GetOrder` entry under `rid1`, the call
returns the misuse error but the pending-request map is mutated (the entry is
removed), so the per-peer store is not left exactly as it was. -/
theorem send_payment_details_mutates_on_other_kind :
    (send_payment_details stGetOrderPending rid1 peer1 payment1 10 20 oid1).2 =
      Except.error (APIError.APIMisuseError
        ("No pending buy request for request_id: " ++ rid1.id)) ∧
    (stGetOrderPending.per_peer_state.lookup peer1).map
        (fun ps => ps.pending_requests) =
      some [(rid1, LSPS1Request.GetOrder { order_id := oid1 })] ∧
    ((send_payment_details stGetOrderPending rid1 peer1 payment1 10 20
        oid1).1.per_peer_state.lookup peer1).map (fun ps => ps.pending_requests) =
      some [] :=
  ⟨rfl, rfl, rfl⟩

/-- C10: in every state reachable through `handle_message`,
`send_payment_details` and `update_order_status`, every counterparty's
`request_to_cid` map is empty — no exposed operation ever calls
`insert_request`. -/
theorem reachable_request_to_cid_empty (cfg : LSPS1ServiceConfig)
    (st : ServiceState) (h : Reachable cfg st) (cp : PublicKey) (ps : PeerState)
    (hps : st.per_peer_state.lookup cp = some ps) : ps.request_to_cid = [] :=
  cid_empty_of_reachable h _ (AList.mem_of_lookup_eq_some hps)

/-- Witness for C10: after one `CreateOrder` the stored peer state has an
empty `request_to_cid` map. -/
theorem reachable_request_to_cid_empty_witness :
    stepA.per_peer_state.lookup peer1 = some psA ∧ psA.request_to_cid = [] :=
  ⟨rfl, reachable_request_to_cid_empty exampleConfig stepA
    (Reachable.step Reachable.init (Step.handle_message _ _ _)) peer1 psA rfl⟩

end LSPS1
